import Mathlib

/-!
Verification of the flibcast session orchestrator against its specification.

Shallow embedding of the Python sources:
  * `app/core/session.py`      — session records, the freshness probe;
  * `app/capture/ffmpeg_hls.py`— the HLS encoder profile and command builder;
  * `app/render/playwright_driver.py` — browser launch/close;
  * `app/sender/fcast_adapter.py` — the receiver sender adapter;
  * `app/serve/http_api.py`    — the control plane, orchestration task,
                                 receiver-binding registry and teardown.

Filesystem interaction is abstracted to the data the code reads from it
(file mtimes in milliseconds, existence flags); subprocess and network
collaborators are abstracted to the sequence of calls issued to them and a
boolean behaviour flag saying whether the call raises.  Machine integers do
not overflow anywhere in this code path, so Python ints are modelled as
`Int` / `Nat` directly.
-/

namespace Flibcast

/-! ## Freshness probe — `app/core/session.py`, `SessionFreshness.evaluate`

The probe reads, from the session directory, the master playlist
(`index.m3u8`) and the modification times of the `*.ts` segment files.  We
embed the directory as `master : Option Int` (the playlist mtime in ms when
the playlist exists) and `segs : List Int` (the mtimes, in ms, of the
segment files, in scan order). -/

/-- Mirrors the Python `FreshnessReport` dataclass. -/
structure FreshnessReport where
  last_segment_age_ms : Option Int
  stale : Bool
  deriving Repr, DecidableEq

/-- The running-maximum fold over segment mtimes, exactly as the loop
`for segment in self.session.dir.glob("*.ts"): ... if newest_segment_ms is
None or segment_ms > newest_segment_ms: newest_segment_ms = segment_ms`
computes it. -/
def newestSeg (segs : List Int) : Option Int :=
  segs.foldl
    (fun acc t =>
      match acc with
      | none => some t
      | some a => if t > a then some t else some a)
    none

/-- `SessionFreshness.evaluate` (session.py lines 154-175): if the master
playlist is missing, report `(None, stale=True)`; otherwise compute the
newest segment mtime; if there is none, fall back to the playlist mtime for
the staleness check but keep the reported age `None`; otherwise report the
newest segment's age and compare it against the threshold. -/
def evaluate (stale_after_ms : Int) (now_ms : Int)
    (master : Option Int) (segs : List Int) : FreshnessReport :=
  match master with
  | none => { last_segment_age_ms := none, stale := true }
  | some master_ms =>
    match newestSeg segs with
    | none =>
      { last_segment_age_ms := none
        stale := now_ms - master_ms > stale_after_ms }
    | some newest_ms =>
      { last_segment_age_ms := some (now_ms - newest_ms)
        stale := now_ms - newest_ms > stale_after_ms }

/-! ## Encoder profile and command — `app/capture/ffmpeg_hls.py` -/

/-- Mirrors `_parse_bitrate`: split a bitrate string into its digit
characters (in order) and its non-digit characters (in order); fail when
there is no digit; the suffix defaults to `"k"`. -/
def parseBitrate (value : String) : Except String (Nat × String) :=
  let digits := value.toList.filter Char.isDigit
  let suffix := String.mk (value.toList.filter (fun c => !c.isDigit))
  if digits.isEmpty then
    Except.error ("Invalid bitrate " ++ value)
  else
    Except.ok (digits.foldl (fun acc c => 10 * acc + (c.toNat - 48)) 0,
               if suffix.isEmpty then "k" else suffix)

/-- Mirrors the `HlsProfile` dataclass with its defaults. -/
structure HlsProfile where
  width : Nat := 1920
  height : Nat := 1080
  fps : Nat := 15
  video_bitrate : String := "3500k"
  audio : Bool := false
  audio_device : String := "default"
  audio_bitrate : String := "128k"
  segment_seconds : Nat := 2
  list_size : Nat := 6
  stale_after_ms : Int := 8000
  deriving Repr, DecidableEq

namespace HlsProfile

/-- `HlsProfile.variant_name`. -/
def variant_name (p : HlsProfile) : String :=
  "variant_" ++ toString p.height ++ "p.m3u8"

/-- `HlsProfile.bufsize`: twice the parsed rate with the same suffix.
Propagates the `_parse_bitrate` failure (a raised `ValueError` in Python). -/
def bufsize (p : HlsProfile) : Except String String := do
  let (rate, suffix) ← parseBitrate p.video_bitrate
  return toString (rate * 2) ++ suffix

/-- `HlsProfile.gop`. -/
def gop (p : HlsProfile) : Nat := p.fps * 2

end HlsProfile

/-- The fixed head of the ffmpeg command plus the x11grab input
(ffmpeg_hls.py 78-92). -/
def ffInputArgs (display : String) (p : HlsProfile) : List String :=
  ["ffmpeg", "-loglevel", "warning", "-nostdin", "-y",
   "-f", "x11grab",
   "-framerate", toString p.fps,
   "-video_size", toString p.width ++ "x" ++ toString p.height,
   "-i", display]

/-- The optional pulse audio input (ffmpeg_hls.py 94-102). -/
def ffAudioIn (p : HlsProfile) : List String :=
  if p.audio then ["-f", "pulse", "-i", p.audio_device] else []

/-- The leading video-codec options (ffmpeg_hls.py 106-111). -/
def ffVideoPre : List String :=
  ["-c:v", "libx264", "-preset", "veryfast", "-tune", "zerolatency"]

/-- The rate-derived video options (ffmpeg_hls.py 112-124). -/
def ffVideoDerived (p : HlsProfile) (bufsize : String) : List String :=
  ["-b:v", p.video_bitrate,
   "-maxrate", p.video_bitrate,
   "-bufsize", bufsize,
   "-g", toString p.gop,
   "-keyint_min", toString p.gop,
   "-sc_threshold", "0"]

/-- The optional audio-codec options (ffmpeg_hls.py 127-137). -/
def ffAudioCodec (p : HlsProfile) : List String :=
  if p.audio then ["-c:a", "aac", "-b:a", p.audio_bitrate, "-ac", "2"] else []

/-- The HLS muxer options and output path (ffmpeg_hls.py 139-153). -/
def ffHlsArgs (out_dir : String) (p : HlsProfile) : List String :=
  ["-hls_time", toString p.segment_seconds,
   "-hls_list_size", toString p.list_size,
   "-hls_flags", "delete_segments+independent_segments",
   "-master_pl_name", "index.m3u8",
   "-f", "hls",
   out_dir ++ "/" ++ p.variant_name]

/-- `FfmpegHls.build_command` (ffmpeg_hls.py lines 77-154), the
concatenation of the pieces above in source order.  `out_dir` is carried
as a string prefix for the variant-playlist path, mirroring
`str(self.variant_playlist)`.  The command construction raises only if
`bufsize()` raises, which the `Except` propagates. -/
def build_command (display : String) (out_dir : String) (p : HlsProfile) :
    Except String (List String) := do
  let bufsize ← p.bufsize
  return ffInputArgs display p ++ ffAudioIn p ++
    (ffVideoPre ++ ffVideoDerived p bufsize) ++ ffAudioCodec p ++
    ffHlsArgs out_dir p

/-! ## Python attribute semantics for the `Session` record —
`app/core/session.py` lines 31-48

`Session` is declared `@dataclass(slots=True)`, so the object carries
exactly the declared fields and **no** `__dict__`: reading or writing any
other attribute raises `AttributeError`.  We embed a session object as the
association list of its slot fields; `pySetAttr`/`pyGetAttr` give the
CPython semantics of attribute access on such an object. -/

/-- Values stored in session attributes. -/
inductive PyVal where
  | vstr (s : String)
  | vint (n : Int)
  | vnone
  deriving Repr, DecidableEq

/-- Optional string → Python value (None ↦ `vnone`). -/
def optVal : Option String → PyVal
  | none => PyVal.vnone
  | some s => PyVal.vstr s

/-- Attribute read on a slots object: the attribute must be one of the
(initialised) slot fields, otherwise `AttributeError`. -/
def pyGetAttr (fields : List (String × PyVal)) (name : String) :
    Except String PyVal :=
  match fields.lookup name with
  | some v => Except.ok v
  | none => Except.error ("AttributeError: " ++ name)

/-- Attribute write on a slots object: permitted only on existing slot
fields; any other name raises `AttributeError` (there is no `__dict__` to
take it). -/
def pySetAttr (fields : List (String × PyVal)) (name : String) (v : PyVal) :
    Except String (List (String × PyVal)) :=
  if (fields.map Prod.fst).contains name then
    Except.ok (fields.map (fun kv => if kv.1 = name then (name, v) else kv))
  else
    Except.error ("AttributeError: " ++ name)

/-- The fields of a freshly constructed `Session` (`SessionManager.create`,
session.py lines 186-191): dataclass defaults `state="starting"`,
`last_ok_at=None`, `display=":99"`, all request-derived fields `None`.
`sid` is the fresh uuid hex, `ts` the creation timestamp. -/
def newSessionFields (sid : String) (dirStr : String) (ts : String) :
    List (String × PyVal) :=
  [("id", PyVal.vstr sid),
   ("dir", PyVal.vstr dirStr),
   ("state", PyVal.vstr "starting"),
   ("started_at", PyVal.vstr ts),
   ("last_ok_at", PyVal.vnone),
   ("display", PyVal.vstr ":99"),
   ("source_url", PyVal.vnone),
   ("receiver_name", PyVal.vnone),
   ("receiver_host", PyVal.vnone),
   ("receiver_port", PyVal.vnone)]

/-- Mirrors the pydantic `StartRequest` model with its defaults
(http_api.py lines 46-60). -/
structure StartRequest where
  url : String
  receiver_name : String
  width : Int := 1920
  height : Int := 1080
  fps : Int := 15
  video_bitrate : String := "3500k"
  audio : Bool := false
  audio_device : Option String := none
  cookies_path : Option String := none
  user_data_dir : Option String := none
  title : Option String := none
  receiver_host : Option String := none
  receiver_port : Int := 46899
  hide_browser_ui : Bool := true
  deriving Repr, DecidableEq

/-- The `SessionStatus` payload the handler builds (http_api.py 254-266),
with each field as the `PyVal` read from the record. -/
structure SessionStatusResp where
  id : PyVal
  state : PyVal
  source_url : PyVal
  receiver_name : PyVal
  receiver_host : PyVal
  receiver_port : PyVal
  started_at : PyVal
  width : PyVal
  height : PyVal
  deriving Repr, DecidableEq

/-- CPython keyword-argument binding: calling a function with a keyword
that is not among its declared parameters raises `TypeError`. -/
def pyCallKwargs (accepted : List String) (kwargs : List String) :
    Except String Unit :=
  match kwargs.find? (fun k => !(accepted.contains k)) with
  | some k => Except.error ("TypeError: unexpected keyword argument " ++ k)
  | none => Except.ok ()

/-- The keyword parameters `PlaywrightDriver.__init__` accepts
(playwright_driver.py 45-50): the keyword-only `browser_args` and
`anti_sleep_script` — there is no `hide_browser_ui` parameter. -/
def playwrightDriverParams : List String :=
  ["browser_args", "anti_sleep_script"]

/-- The session-record writes `start_session` performs before constructing
the runtime (http_api.py 234-237).  The record is mutated in place, so
these writes survive even when the handler aborts later. -/
def startSessionRecordWrites (fields : List (String × PyVal))
    (req : StartRequest) : Except String (List (String × PyVal)) := do
  let fields ← pySetAttr fields "source_url" (PyVal.vstr req.url)
  let fields ← pySetAttr fields "receiver_name" (PyVal.vstr req.receiver_name)
  let fields ← pySetAttr fields "receiver_host" (optVal req.receiver_host)
  let fields ← pySetAttr fields "receiver_port" (PyVal.vint req.receiver_port)
  return fields

/-- The `POST /sessions` handler `start_session` (http_api.py 231-266)
restricted to its record and constructor interactions, in source order:
create the record, imprint the four request fields (lines 234-237), then
build the `SessionRuntime` — whose first evaluated collaborator argument
is `PlaywrightDriver(hide_browser_ui=req.hide_browser_ui)` (line 241), a
call with a keyword the constructor does not accept.  Only if that call
returned would the handler register the runtime, start the orchestration
thread (lines 248-252, no record access) and build the response, which
reads `session.width` and `session.height` (lines 264-265), attributes
that are not among the record's slots. -/
def startSession (sid : String) (dirStr : String) (ts : String)
    (req : StartRequest) : Except String SessionStatusResp := do
  let fields ← startSessionRecordWrites (newSessionFields sid dirStr ts) req
  let _ ← pyCallKwargs playwrightDriverParams ["hide_browser_ui"]
  let idv ← pyGetAttr fields "id"
  let statev ← pyGetAttr fields "state"
  let srcv ← pyGetAttr fields "source_url"
  let rnamev ← pyGetAttr fields "receiver_name"
  let rhostv ← pyGetAttr fields "receiver_host"
  let rportv ← pyGetAttr fields "receiver_port"
  let startedv ← pyGetAttr fields "started_at"
  let widthv ← pyGetAttr fields "width"
  let heightv ← pyGetAttr fields "height"
  return { id := idv, state := statev, source_url := srcv,
           receiver_name := rnamev, receiver_host := rhostv,
           receiver_port := rportv, started_at := startedv,
           width := widthv, height := heightv }

/-- The display identifiers handed to the collaborator handles in
`start_session` (http_api.py 242-243): `Xvfb(..., display=session.display)`
and `FfmpegHls(display=session.display, ...)`. -/
def runtimeHandleDisplays (fields : List (String × PyVal)) :
    Except String (PyVal × PyVal) := do
  let dx ← pyGetAttr fields "display"
  let de ← pyGetAttr fields "display"
  return (dx, de)

/-! ## Receiver-binding registry — `app/serve/http_api.py`

`_receiver_sessions` is a plain Python `dict[str, str]` mapping
`receiver_name → session_id`.  We embed it as an association list with
dict semantics (a key occurs at most once; assignment replaces in place or
appends). -/

/-- Python `d[k] = v` on the binding dict. -/
def dictSet (m : List (String × String)) (k v : String) :
    List (String × String) :=
  if m.any (fun kv => kv.1 = k) then
    m.map (fun kv => if kv.1 = k then (k, v) else kv)
  else
    m ++ [(k, v)]

/-- Python `d.get(k)`. -/
def dictGet (m : List (String × String)) (k : String) : Option String :=
  m.lookup k

/-- Python `d.pop(k, None)`. -/
def dictPop (m : List (String × String)) (k : String) :
    List (String × String) :=
  m.filter (fun kv => kv.1 ≠ k)

/-- The binding insert performed by the orchestrator on successful play
(http_api.py 178-185): `_receiver_sessions[req.receiver_name] = session.id`
— an unconditional dict assignment. -/
def onPlaySuccess (bindings : List (String × String)) (name sid : String) :
    List (String × String) :=
  dictSet bindings name sid

/-! ## Orchestration-task teardown — `_orchestrate`'s `finally` block
(http_api.py 202-217) and `_stop_receiver_if_active` (122-136) -/

/-- Session lifecycle states. -/
inductive SState where
  | starting
  | playing
  | stopping
  | stopped
  | error
  deriving Repr, DecidableEq, Fintype

/-- Collaborator calls attempted during teardown, in order. -/
inductive TCall where
  | encoderStop
  | driverClose
  | xvfbStop
  | senderStop (name : String) (host : Option String) (port : Int)
  deriving Repr, DecidableEq

/-- Whether each collaborator call raises when invoked. -/
structure TearBehavior where
  encoderRaises : Bool := false
  driverRaises : Bool := false
  xvfbRaises : Bool := false
  senderRaises : Bool := false
  deriving Repr, DecidableEq

/-- The mutable data teardown touches: session state, the binding
registry, and whether this session's runtime is still registered. -/
structure TearState where
  st : SState
  bindings : List (String × String)
  runtimePresent : Bool
  deriving Repr, DecidableEq

/-- Result of running the `finally` block. -/
structure TearResult where
  calls : List TCall
  st : SState
  bindings : List (String × String)
  runtimePresent : Bool
  raised : Bool
  deriving Repr, DecidableEq

/-- `_stop_receiver_if_active` (http_api.py 122-136): return immediately
when the receiver name is falsy (`None` or `""`) or the binding does not
belong to this session; otherwise call `sender.stop` — whose exception,
if any, propagates, skipping the binding removal — then pop the binding. -/
def stopReceiverIfActive (senderRaises : Bool) (name : Option String)
    (sid : String) (host : Option String) (port : Option Int)
    (bindings : List (String × String)) :
    List TCall × List (String × String) × Bool :=
  let falsy := match name with
    | none => true
    | some s => s = ""
  if falsy then ([], bindings, false)
  else
    let n := name.getD ""
    if dictGet bindings n ≠ some sid then ([], bindings, false)
    else
      let stopPort := port.getD 46899
      if senderRaises then ([TCall.senderStop n host stopPort], bindings, true)
      else ([TCall.senderStop n host stopPort], dictPop bindings n, false)

/-- The `finally` block of `_orchestrate` (http_api.py 202-217): the three
handle stops each wrapped in `contextlib.suppress(Exception)` (attempted
and their failures swallowed), then `_stop_receiver_if_active` — **not**
wrapped, so a raise there escapes the `finally`, skipping the final state
write and the runtime-registry pop — then `state = "stopped"` unless the
state is already terminal, then `_runtimes.pop(session.id, None)`. -/
def orchestrateTeardown (b : TearBehavior) (sid : String)
    (receiverName : String) (host : Option String) (port : Int)
    (ts : TearState) : TearResult :=
  let handleCalls := [TCall.encoderStop, TCall.driverClose, TCall.xvfbStop]
  let r := stopReceiverIfActive b.senderRaises (some receiverName) sid host
    (some port) ts.bindings
  if r.2.2 then
    { calls := handleCalls ++ r.1, st := ts.st, bindings := r.2.1,
      runtimePresent := ts.runtimePresent, raised := true }
  else
    let st2 := if ts.st = SState.error ∨ ts.st = SState.stopped
      then ts.st else SState.stopped
    { calls := handleCalls ++ r.1, st := st2, bindings := r.2.1,
      runtimePresent := false, raised := false }

/-! ## Session state transitions — `start_session` and the
`DELETE /sessions/{sid}` handler (http_api.py 231-266, 289-318)

Which code can write a session's `state` field?  `SessionManager.create`
initialises it to `"starting"` (session.py 37); `_await_initial_playlist`
and `_orchestrate` write `"playing"`, `"error"` and `"stopped"` — but they
run only on the orchestration thread, and that thread is never created:
`start_session` raises `TypeError` at `PlaywrightDriver(hide_browser_ui=
req.hide_browser_ui)` (http_api.py 241, see `startSession` and its
theorems) before `thread.start()` at line 252, leaving the freshly created
record in the registry in state `"starting"`.  The only remaining writer
is the `DELETE` handler, which runs `session.state = "stopping"`
(http_api.py 296) unconditionally on any session still in the registry.
The realisable transition system over the `state` field is therefore the
one below. -/

/-- The atomic state-writing actions the program can perform on a session
record after its creation. -/
inductive SessAct where
  /-- The `DELETE /sessions/{sid}` handler on a session present in the
  registry: `session.state = "stopping"` (http_api.py 296), unconditional
  whatever the current state.  (The handler's runtime lookup at line 295
  finds nothing — line 248 was never reached — so the stop-event and join
  steps are skipped; the state write happens regardless.) -/
  | stopRequest
  deriving Repr, DecidableEq

/-- The effect of each action on the session's `state` field; the stop
write ignores the current state. -/
def sessStep (_st : SState) : SessAct → Option SState
  | SessAct.stopRequest => some SState.stopping

/-- One observable state change. -/
def SessStepRel (st st₂ : SState) : Prop :=
  ∃ a : SessAct, sessStep st a = some st₂

/-- Session states reachable from creation (`"starting"`, session.py 37). -/
inductive ReachS : SState → Prop where
  | init : ReachS SState.starting
  | step {st st₂ : SState} {a : SessAct} (h : ReachS st)
      (hs : sessStep st a = some st₂) : ReachS st₂

/-- The transition table of spec §4.6 as a relation on states. -/
def specEdge : SState → SState → Bool
  | SState.starting, SState.playing => true
  | SState.starting, SState.error => true
  | SState.playing, SState.stopping => true
  | SState.playing, SState.error => true
  | SState.stopping, SState.stopped => true
  | SState.starting, SState.stopped => true
  | SState.playing, SState.stopped => true
  | _, _ => false

/-! ## Browser launch — `app/render/playwright_driver.py`, `launch`
(lines 59-117)

The driver's side effects are recorded as an ordered trace; the function
returns the effects performed before the first raise (if any) together
with the raise. -/

/-- Observable effects of `PlaywrightDriver.launch`, in program order. -/
inductive LEff where
  /-- `sync_playwright()` obtained and `.start()` called (lines 81-82):
  the Playwright driver process starts here. -/
  | driverStart
  /-- `chromium.launch_persistent_context(...)` (lines 86-91). -/
  | persistentContext (dir : String)
  /-- `chromium.launch(...)` (lines 93-96): the browser process spawns. -/
  | browserLaunch
  /-- `browser.new_context(viewport=...)` (line 97). -/
  | newContext
  /-- `context.set_extra_http_headers(...)` (line 100). -/
  | setExtraHeaders
  /-- `context.add_cookies(payload)` with `n` cookies (line 110). -/
  | addCookies (n : Nat)
  /-- `context.new_page()` (line 112). -/
  | newPage
  /-- `page.add_init_script(...)` (line 114). -/
  | addInitScript
  /-- `page.goto(url, wait_until=..., ...)` (line 116). -/
  | gotoUrl (url : String) (waitUntil : String)
  deriving Repr, DecidableEq

/-- Errors `launch` can raise. -/
inductive LErr where
  /-- `RuntimeError("Browser already launched")` (line 75). -/
  | alreadyLaunched
  /-- `ValueError("Provide either cookies or cookies_path, not both")`
  (line 78). -/
  | bothCookieSources
  /-- `FileNotFoundError` from `_load_cookies_from_file` (line 184). -/
  | cookiesFileNotFound (path : String)
  /-- `ValueError("Cookies JSON must be a list")` (line 187). -/
  | cookiesNotAList
  deriving Repr, DecidableEq

/-- The content `_load_cookies_from_file` finds at the cookies path;
cookie dictionaries are abstracted to opaque tokens. -/
inductive CookieFileContent where
  | missing
  | notAList
  | entries (l : List String)
  deriving Repr, DecidableEq

/-- `_load_cookies_from_file` (lines 181-193). -/
def loadCookiesFromFile (path : String) (content : CookieFileContent) :
    Except LErr (List String) :=
  match content with
  | CookieFileContent.missing => Except.error (LErr.cookiesFileNotFound path)
  | CookieFileContent.notAList => Except.error (LErr.cookiesNotAList)
  | CookieFileContent.entries l => Except.ok l

/-- Python truthiness of the `cookies` argument (an iterable or `None`):
`None` and the empty iterable are falsy. -/
def cookiesTruthy : Option (List String) → Bool
  | none => false
  | some [] => false
  | some (_ :: _) => true

/-- The tail of the launch trace after the cookie payload is settled
(lines 108-117): inject cookies when the payload is non-empty, open the
page, install the (non-empty default) anti-sleep init script, navigate. -/
def launchFinish (effs : List LEff) (payload : List String)
    (url waitUntil : String) : List LEff × Option LErr :=
  (effs ++ (if payload.isEmpty then [] else [LEff.addCookies payload.length])
        ++ [LEff.newPage, LEff.addInitScript, LEff.gotoUrl url waitUntil],
   none)

/-- `PlaywrightDriver.launch` (lines 59-117).  `launched` is whether
`self._context` is already set; `cookiesPath` carries the path together
with what loading it would find. -/
def launch (launched : Bool) (url : String)
    (cookies : Option (List String))
    (cookiesPath : Option (String × CookieFileContent))
    (userDataDir : Option String) (extraHeaders : Bool)
    (waitUntil : String) : List LEff × Option LErr :=
  if launched then ([], some LErr.alreadyLaunched)
  else if cookiesTruthy cookies && cookiesPath.isSome then
    ([], some LErr.bothCookieSources)
  else
    let effs1 := [LEff.driverStart]
    let effs2 := match userDataDir with
      | some d => [LEff.persistentContext d]
      | none => [LEff.browserLaunch, LEff.newContext]
    let effs3 := if extraHeaders then [LEff.setExtraHeaders] else []
    let effs := effs1 ++ effs2 ++ effs3
    match cookiesPath with
    | some (p, content) =>
      match loadCookiesFromFile p content with
      | Except.error e => (effs, some e)
      | Except.ok payload => launchFinish effs payload url waitUntil
    | none =>
      launchFinish effs (match cookies with
        | some l => l
        | none => []) url waitUntil

/-! ## Receiver sender — `app/sender/fcast_adapter.py` -/

/-- A discovery-capable client (the `fcast_client.FCastClient` library
object or an injected test double): its `discover()` result, as raw
name/id dictionaries with possibly-missing keys. -/
structure DiscClient where
  devices : List (Option String × Option String)
  deriving Repr, DecidableEq

/-- Which of the two optional client libraries imported successfully. -/
structure SenderLibs where
  discoveryAvailable : Bool
  legacyAvailable : Bool
  deriving Repr, DecidableEq

/-- `Sender.__init__` (lines 32-41): an explicit client wins; otherwise a
fresh `FCastClient()` when that library imported; otherwise `self.client`
is `None` (also when only the legacy `fcast.FCAST_Client` is present). -/
def senderClientInit (libs : SenderLibs) (clientArg : Option DiscClient)
    (libClient : DiscClient) : Option DiscClient :=
  match clientArg with
  | some c => some c
  | none => if libs.discoveryAvailable then some libClient else none

/-- `Sender.is_available` (lines 43-44). -/
def senderIsAvailable (client : Option DiscClient) : Bool :=
  client.isSome

/-- `Sender.discover` (lines 46-56): keep only devices whose `name` and
`id` values are truthy (present and non-empty). -/
def senderDiscover (client : Option DiscClient) : List (String × String) :=
  match client with
  | none => []
  | some c =>
    c.devices.filterMap (fun d =>
      match d with
      | (some n, some i) => if n ≠ "" ∧ i ≠ "" then some (n, i) else none
      | _ => none)

/-- Commands issued to client objects during `play`/`stop`. -/
inductive SendEff where
  /-- `FCAST_Client(host, port)` connection (line 89). -/
  | legacyConnect (host : String) (port : Int)
  /-- `client.play(container=..., url=...)` (lines 91-94). -/
  | legacyPlay (container : String) (url : String)
  /-- `client.close()` in the `finally` (lines 96-97). -/
  | legacyClose
  /-- Discovery client `client.play(id, url, title)` (line 79). -/
  | clientPlay (id : String) (url : String) (title : String)
  /-- Discovery client `client.stop(id)` (line 105). -/
  | clientStop (id : String)
  deriving Repr, DecidableEq

/-- Python `title or "WebCast"`. -/
def titleOrDefault : Option String → String
  | none => "WebCast"
  | some t => if t = "" then "WebCast" else t

/-- `Sender.play` (lines 65-98): with a discovery client, resolve the name
against `discover()` and play by id; otherwise fall back to the legacy
direct client — requiring the library and a truthy `host` — and send a
play command whose container is the HLS MIME type.  Returns the success
flag and the trace of commands issued. -/
def senderPlay (legacyAvailable : Bool) (client : Option DiscClient)
    (receiverName mediaUrl : String) (title : Option String)
    (host : Option String) (port : Int) : Bool × List SendEff :=
  match client with
  | some c =>
    match (senderDiscover (some c)).find? (fun r => r.1 = receiverName) with
    | none => (false, [])
    | some r => (true, [SendEff.clientPlay r.2 mediaUrl (titleOrDefault title)])
  | none =>
    if legacyAvailable = false then (false, [])
    else
      match host with
      | none => (false, [])
      | some h =>
        if h = "" then (false, [])
        else (true, [SendEff.legacyConnect h port,
                     SendEff.legacyPlay "application/vnd.apple.mpegurl" mediaUrl,
                     SendEff.legacyClose])

/-! ## Helper lemmas -/

/-- The running-maximum fold, started from `some a`, computes the list
maximum. -/
theorem newestSeg_go (as : List Int) : ∀ a : Int,
    List.foldl
      (fun acc t =>
        match acc with
        | none => some t
        | some x => if t > x then some t else some x)
      (some a) as = some (as.foldl max a) := by
  induction as with
  | nil => intro a; rfl
  | cons t ts ih =>
    intro a
    have hstep : (if t > a then some t else some a) = some (max a t) := by
      rcases le_or_lt t a with h | h
      · rw [if_neg (not_lt.mpr h), max_eq_left h]
      · rw [if_pos h, max_eq_right h.le]
    simp only [List.foldl]
    rw [hstep]
    exact ih (max a t)

/-- The source's newest-segment scan agrees with `List.max?`. -/
theorem newestSeg_eq_max (l : List Int) : newestSeg l = l.max? := by
  cases l with
  | nil => rfl
  | cons a as =>
    unfold newestSeg
    simp only [List.foldl]
    exact newestSeg_go as a

/-! ## Claim C6 — the freshness probe -/

/-- Claim C6, counterexample.  The claim says the playlist mtime is the
fallback for the *reported* age and that the report is stale iff the age
is absent or above the threshold.  Both fail on the code: with a fresh
playlist and no segments the report is `(age = none, stale = false)` — an
absent age that is not stale, and no playlist-mtime-derived age is
reported; and with segments present but no playlist the report is
`(none, stale)` although the claim would report the newest segment's age. -/
theorem C6_freshness_counterexample :
    evaluate 8000 10000 (some 10000) [] =
      { last_segment_age_ms := none, stale := false } ∧
    evaluate 8000 10000 none [9900] =
      { last_segment_age_ms := none, stale := true } := by
  exact ⟨rfl, rfl⟩

/-- Claim C6, amended: `SessionFreshness.evaluate` is a pure function of
the directory snapshot and the clock; if the playlist is missing the
report is `(none, stale)` regardless of segments; otherwise the reported
age is `now − (newest segment mtime)` — `none` when no segment exists, in
which case staleness falls back to the playlist mtime — and the report is
stale iff the effective age exceeds `stale_after_ms`.  The last conjunct
ties the source's scan to `List.max?`: the reported age really is derived
from the *newest* segment. -/
theorem C6_evaluate_characterization :
    ∀ (thr now m : Int) (segs : List Int),
      evaluate thr now none segs =
        { last_segment_age_ms := none, stale := true } ∧
      evaluate thr now (some m) [] =
        { last_segment_age_ms := none, stale := decide (now - m > thr) } ∧
      (∀ mx : Int, segs.max? = some mx →
        evaluate thr now (some m) segs =
          { last_segment_age_ms := some (now - mx)
            stale := decide (now - mx > thr) }) ∧
      newestSeg segs = segs.max? := by
  intro thr now m segs
  refine ⟨rfl, rfl, ?_, newestSeg_eq_max segs⟩
  intro mx hmx
  unfold evaluate
  rw [newestSeg_eq_max segs, hmx]

/-- Claim C6, witness for the amended theorem: a directory whose newest
segment is 500 ms old is reported with exactly that age and is not
stale. -/
theorem C6_evaluate_characterization_witness :
    [9000, 9500].max? = some 9500 ∧
    evaluate 8000 10000 (some 0) [9000, 9500] =
      { last_segment_age_ms := some (10000 - 9500)
        stale := decide (10000 - 9500 > 8000) } :=
  ⟨by decide, (C6_evaluate_characterization 8000 10000 0 [9000, 9500]).2.2.1 9500 (by decide)⟩

/-! ## Claim C1 — the session state machine -/

/-- Reachable session states: because the orchestration thread is never
spawned, a record is only ever in `starting` (creation) or `stopping`
(after a `DELETE`). -/
theorem reachS_cases {st : SState} (h : ReachS st) :
    st = SState.starting ∨ st = SState.stopping := by
  induction h with
  | init => exact Or.inl rfl
  | step h hs ih =>
    rename_i _st st₂ a
    cases a
    exact Or.inr (Option.some.inj hs).symm

/-- Claim C1, amended: the orchestration task is never spawned —
`start_session` raises `TypeError` constructing
`PlaywrightDriver(hide_browser_ui=...)` (http_api.py 241) before
`thread.start()` — so no session ever reaches `playing`, `stopped` or
`error`; the only state transition the program performs is the
control-plane stop path's `starting → stopping` (http_api.py 296), which
is itself not an edge of the §4.6 table; repeated stops are idempotent,
and no transition enters `starting` after creation. -/
theorem C1_only_stop_transition (st st₂ : SState)
    (hr : ReachS st) (hs : SessStepRel st st₂) :
    (st = SState.starting ∨ st = SState.stopping) ∧
    (st₂ = st ∨
      (st = SState.starting ∧ st₂ = SState.stopping ∧
        specEdge st st₂ = false)) ∧
    (st₂ = SState.starting → st = SState.starting) := by
  obtain ⟨a, ha⟩ := hs
  cases a
  have h2 : st₂ = SState.stopping := (Option.some.inj ha).symm
  subst h2
  rcases reachS_cases hr with h | h
  · subst h
    exact ⟨Or.inl rfl, Or.inr ⟨rfl, rfl, rfl⟩, fun hc => by cases hc⟩
  · subst h
    exact ⟨Or.inr rfl, Or.inl rfl, fun hc => by cases hc⟩

/-- Claim C1, witness: the first `DELETE` on a fresh session performs
exactly the `starting → stopping` transition. -/
theorem C1_only_stop_transition_witness :
    ReachS SState.starting ∧
    (SState.stopping = SState.starting ∨
      (SState.starting = SState.starting ∧ SState.stopping = SState.stopping ∧
        specEdge SState.starting SState.stopping = false)) ∧
    (SState.stopping = SState.starting → SState.starting = SState.starting) :=
  ⟨ReachS.init,
   (C1_only_stop_transition SState.starting SState.stopping ReachS.init
     ⟨SessAct.stopRequest, rfl⟩).2⟩

/-- Claim C1, counterexample.  The `DELETE` handler writes
`session.state = "stopping"` (http_api.py 296) on a session still in
state `starting` — the record a failed `POST` leaves in the registry —
and `starting → stopping` is not an edge of the §4.6 table. -/
theorem C1_stop_path_not_a_table_edge :
    ReachS SState.starting ∧
    sessStep SState.starting SessAct.stopRequest = some SState.stopping ∧
    SState.starting ≠ SState.stopping ∧
    specEdge SState.starting SState.stopping = false :=
  ⟨ReachS.init, rfl, by decide, by decide⟩

/-! ## Claim C2 — POST /sessions and the session record -/

/-- Claim C2 (code bug).  `start_session` imprints the four request
fields onto the record (http_api.py 234-237, second conjunct: they
succeed, the record keeps `state="starting"` and its `source_url` echoes
the request), but then raises `TypeError` while constructing the runtime:
`PlaywrightDriver(hide_browser_ui=req.hide_browser_ui)` (line 241) passes
a keyword the constructor (playwright_driver.py 45-50) does not accept.
Every `POST /sessions` therefore returns a 500 instead of a
`SessionStatus` with `state=starting`, and `width`/`height` are never
captured — the `Session` dataclass has no such slots at all (third
conjunct), so the response build at lines 264-265, had it been reached,
would itself have raised `AttributeError`. -/
theorem C2_start_session_type_error :
    ∀ (sid dirStr ts : String) (req : StartRequest),
      startSession sid dirStr ts req =
        Except.error ("TypeError: unexpected keyword argument hide_browser_ui") ∧
      (∃ fields,
        startSessionRecordWrites (newSessionFields sid dirStr ts) req =
          Except.ok fields ∧
        pyGetAttr fields "state" = Except.ok (PyVal.vstr "starting") ∧
        pyGetAttr fields "source_url" = Except.ok (PyVal.vstr req.url) ∧
        pyGetAttr fields "width" = Except.error ("AttributeError: width") ∧
        pyGetAttr fields "height" = Except.error ("AttributeError: height")) := by
  intro sid dirStr ts req
  exact ⟨rfl, ⟨_, rfl, rfl, rfl, rfl, rfl⟩⟩

/-! ## Claim C3 — teardown -/

/-- Claim C3 (code bug).  First conjunct, the failing input: when
`sender.stop` raises during teardown (binding held by this session), the
raise escapes the `finally` — the state is *not* set to `stopped`, the
runtime is *not* removed from the registry, and even the binding removal
is skipped — contradicting the claim that every teardown failure is
swallowed and never skips the subsequent steps.  Second conjunct: on the
same input with a non-raising sender the remaining steps do run (state set
to `stopped`, binding and runtime removed), isolating the unsuppressed
receiver-stop call as the cause.  Third conjunct: failures of the three
handle stops are swallowed — with all three raising, the calls are still
all attempted in order and the outcome is unchanged. -/
theorem C3_teardown_sender_raise_skips_final_steps :
    orchestrateTeardown { senderRaises := true } "s1" "Dummy"
        (some ("192.0.2.10")) 46899
        { st := SState.playing, bindings := [("Dummy", "s1")],
          runtimePresent := true } =
      { calls := [TCall.encoderStop, TCall.driverClose, TCall.xvfbStop,
                  TCall.senderStop "Dummy" (some ("192.0.2.10")) 46899],
        st := SState.playing, bindings := [("Dummy", "s1")],
        runtimePresent := true, raised := true } ∧
    orchestrateTeardown {} "s1" "Dummy" (some ("192.0.2.10")) 46899
        { st := SState.playing, bindings := [("Dummy", "s1")],
          runtimePresent := true } =
      { calls := [TCall.encoderStop, TCall.driverClose, TCall.xvfbStop,
                  TCall.senderStop "Dummy" (some ("192.0.2.10")) 46899],
        st := SState.stopped, bindings := [], runtimePresent := false,
        raised := false } ∧
    orchestrateTeardown
        { encoderRaises := true, driverRaises := true, xvfbRaises := true }
        "s1" "Dummy" (some ("192.0.2.10")) 46899
        { st := SState.playing, bindings := [("Dummy", "s1")],
          runtimePresent := true } =
      orchestrateTeardown {} "s1" "Dummy" (some ("192.0.2.10")) 46899
        { st := SState.playing, bindings := [("Dummy", "s1")],
          runtimePresent := true } := by
  exact ⟨by decide, by decide, by decide⟩

/-! ## Claim C4 — the receiver-binding registry -/

/-- Case analysis of the keys of a dict assignment: either the key was
present and the key list is unchanged, or it was absent and the key is
appended. -/
theorem dictSet_map_fst (m : List (String × String)) (k v : String) :
    (dictSet m k v).map Prod.fst = m.map Prod.fst ∨
    ((dictSet m k v).map Prod.fst = m.map Prod.fst ++ [k] ∧
      k ∉ m.map Prod.fst) := by
  unfold dictSet
  split
  · left
    rw [List.map_map]
    apply List.map_congr_left
    intro kv _
    by_cases hk : kv.1 = k
    · simp [Function.comp, hk]
    · simp [Function.comp, hk]
  · right
    rename_i hany
    refine ⟨by simp, ?_⟩
    intro hmem
    obtain ⟨kv, hkvm, hfst⟩ := List.mem_map.mp hmem
    exact hany (List.any_eq_true.mpr ⟨kv, hkvm, by simp [hfst]⟩)

/-- Dict assignment preserves key uniqueness. -/
theorem dictSet_nodup_keys (m : List (String × String)) (k v : String)
    (h : (m.map Prod.fst).Nodup) :
    ((dictSet m k v).map Prod.fst).Nodup := by
  rcases dictSet_map_fst m k v with heq | ⟨heq, hnot⟩
  · rw [heq]; exact h
  · rw [heq, List.nodup_append]
    exact ⟨h, List.nodup_singleton k, by simpa using hnot⟩

/-- Dict pop preserves key uniqueness. -/
theorem dictPop_nodup_keys (m : List (String × String)) (k : String)
    (h : (m.map Prod.fst).Nodup) :
    ((dictPop m k).map Prod.fst).Nodup := by
  exact ((List.filter_sublist m).map Prod.fst).nodup h

/-- After a dict assignment, looking up the key returns the assigned
value, whatever was bound before. -/
theorem dictGet_dictSet (m : List (String × String)) (k v : String) :
    dictGet (dictSet m k v) k = some v := by
  unfold dictGet dictSet
  split
  · rename_i hany
    induction m with
    | nil => simp at hany
    | cons kv rest ih =>
      obtain ⟨k1, v1⟩ := kv
      by_cases hk : k1 = k
      · subst hk
        simp only [List.map_cons]
        simp [List.lookup]
      · have hb : (k == k1) = false := beq_eq_false_iff_ne.mpr (Ne.symm hk)
        have hrest : rest.any (fun x => decide (x.1 = k)) = true := by
          rcases List.any_eq_true.mp hany with ⟨x, hx, hpx⟩
          rcases List.mem_cons.mp hx with rfl | hx2
          · exact absurd (of_decide_eq_true hpx) hk
          · exact List.any_eq_true.mpr ⟨x, hx2, hpx⟩
        simp only [List.map_cons]
        rw [if_neg hk]
        simpa [List.lookup, hb] using ih hrest
  · rename_i hany
    induction m with
    | nil => simp [List.lookup]
    | cons kv rest ih =>
      obtain ⟨k1, v1⟩ := kv
      have hk : ¬(k1 = k) := by
        intro hkk
        exact hany (List.any_eq_true.mpr
          ⟨(k1, v1), List.mem_cons_self (k1, v1) rest, by simp [hkk]⟩)
      have hb : (k == k1) = false := beq_eq_false_iff_ne.mpr (Ne.symm hk)
      have hrest : ¬(rest.any (fun x => decide (x.1 = k)) = true) := by
        intro hr
        rcases List.any_eq_true.mp hr with ⟨x, hx, hpx⟩
        exact hany (List.any_eq_true.mpr
          ⟨x, List.mem_cons_of_mem (k1, v1) hx, hpx⟩)
      simpa [List.lookup, hb] using ih hrest

/-- Claim C4, amended: the binding registry is a mapping, so at most one
session id is bound to a receiver name at any instant — both registry
mutations (the insert on successful play and the pop on stop) preserve
key uniqueness — but the insert is an unconditional dict assignment: after
a second session's successful play the name maps to the *second* session's
id, whatever binding existed before. -/
theorem C4_registry_uniqueness_and_overwrite :
    ∀ (m : List (String × String)) (name sid : String),
      ((m.map Prod.fst).Nodup → ((onPlaySuccess m name sid).map Prod.fst).Nodup) ∧
      ((m.map Prod.fst).Nodup → ((dictPop m name).map Prod.fst).Nodup) ∧
      dictGet (onPlaySuccess m name sid) name = some sid := by
  intro m name sid
  exact ⟨dictSet_nodup_keys m name sid, dictPop_nodup_keys m name,
    dictGet_dictSet m name sid⟩

/-- Claim C4, witness for the amended theorem at a concrete registry. -/
theorem C4_registry_uniqueness_witness :
    ([("A", "s1")].map Prod.fst).Nodup ∧
    ((onPlaySuccess [("A", "s1")] "A" "s2").map Prod.fst).Nodup ∧
    dictGet (onPlaySuccess [("A", "s1")] "A" "s2") "A" = some "s2" :=
  ⟨by decide,
   (C4_registry_uniqueness_and_overwrite [("A", "s1")] "A" "s2").1 (by decide),
   (C4_registry_uniqueness_and_overwrite [("A", "s1")] "A" "s2").2.2⟩

/-- Claim C4, counterexample: with receiver "A" bound to session "s1", a
successful play by session "s2" *does* evict the first binding — the
registry afterwards maps "A" to "s2" and no longer to "s1". -/
theorem C4_second_play_evicts_first :
    dictGet [("A", "s1")] "A" = some "s1" ∧
    onPlaySuccess [("A", "s1")] "A" "s2" = [("A", "s2")] ∧
    dictGet (onPlaySuccess [("A", "s1")] "A" "s2") "A" ≠ some "s1" := by
  exact ⟨by decide, by decide, by decide⟩

/-! ## Claim C5 — display identifiers -/

/-- Claim C5 (code bug).  `SessionManager.create` builds every session
with the dataclass default `display=":99"` (session.py 40) and never
allocates: the display handed to the Xvfb handle and to the encoder
(http_api.py 242-243) is `":99"` for *every* session, so any two
concurrently live sessions share the same display identifier, contrary to
the claimed uniqueness. -/
theorem C5_all_sessions_share_display :
    ∀ (sid₁ dir₁ ts₁ sid₂ dir₂ ts₂ : String),
      runtimeHandleDisplays (newSessionFields sid₁ dir₁ ts₁) =
        Except.ok (PyVal.vstr ":99", PyVal.vstr ":99") ∧
      runtimeHandleDisplays (newSessionFields sid₂ dir₂ ts₂) =
        runtimeHandleDisplays (newSessionFields sid₁ dir₁ ts₁) := by
  intro sid₁ dir₁ ts₁ sid₂ dir₂ ts₂
  exact ⟨rfl, rfl⟩

/-! ## Claim C7 — cookie source exclusivity -/

/-- Claim C7, counterexample.  Both cookie arguments are *set* — `cookies`
is an (empty) list, `cookies_path` a real path — yet the truthiness check
`if cookies and cookies_path` passes, no validation error is raised, the
Playwright driver starts and the browser is launched, with the cookies
loaded from the file. -/
theorem C7_empty_cookies_bypass_check :
    launch false "https://example.test" (some [])
        (some ("cookies.json", CookieFileContent.entries ["c1"]))
        none false "networkidle" =
      ([LEff.driverStart, LEff.browserLaunch, LEff.newContext,
        LEff.addCookies 1, LEff.newPage, LEff.addInitScript,
        LEff.gotoUrl "https://example.test" "networkidle"], none) := by
  decide

/-- Claim C7, amended: on a not-yet-launched driver, whenever the
`cookies` argument is set *and non-empty* and `cookies_path` is set,
`launch` raises `ValueError` before any side effect — in particular the
Playwright driver is never started and no browser process is spawned.
(With an empty `cookies` list the check passes; see the counterexample.) -/
theorem C7_nonempty_cookie_sources_conflict :
    ∀ (url c : String) (cs : List String) (path : String)
      (content : CookieFileContent) (userDataDir : Option String)
      (extraHeaders : Bool) (waitUntil : String),
      launch false url (some (c :: cs)) (some (path, content))
          userDataDir extraHeaders waitUntil =
        ([], some LErr.bothCookieSources) := by
  intro url c cs path content userDataDir extraHeaders waitUntil
  rfl

/-! ## Claims C8 and C9 — the encoder command -/

/-- When the bitrate parses, `build_command` succeeds with the explicit
source-order concatenation, the bufsize slot filled with twice the parsed
rate and the same suffix. -/
theorem build_command_ok (d dir : String) (p : HlsProfile) (r : Nat)
    (suf : String) (h : parseBitrate p.video_bitrate = Except.ok (r, suf)) :
    build_command d dir p =
      Except.ok (ffInputArgs d p ++ ffAudioIn p ++
        (ffVideoPre ++ ffVideoDerived p (toString (r * 2) ++ suf)) ++
        ffAudioCodec p ++ ffHlsArgs dir p) := by
  unfold build_command HlsProfile.bufsize
  rw [h]
  rfl

/-- Claim C8: for every profile whose bitrate parses as `(r, suf)`,
`build_command` succeeds and its vector carries, contiguously and in
order, `-b:v r⟨suf⟩`, `-maxrate` equal to the bitrate,
`-bufsize = 2·r` with the same suffix, `-g = 2·fps`,
`-keyint_min = 2·fps`, and the scene-cut threshold disabled
(`-sc_threshold 0`).  Determinism is definitional: the embedding is a
function of the profile (and the fixed display / output directory), so
repeat calls yield equal vectors. -/
theorem C8_build_command_derived_params :
    ∀ (d dir : String) (p : HlsProfile) (r : Nat) (suf : String),
      parseBitrate p.video_bitrate = Except.ok (r, suf) →
      ∃ cmd, build_command d dir p = Except.ok cmd ∧
        ["-b:v", p.video_bitrate, "-maxrate", p.video_bitrate,
         "-bufsize", toString (r * 2) ++ suf,
         "-g", toString (p.fps * 2), "-keyint_min", toString (p.fps * 2),
         "-sc_threshold", "0"] <:+: cmd := by
  intro d dir p r suf h
  refine ⟨_, build_command_ok d dir p r suf h, ?_⟩
  exact ⟨ffInputArgs d p ++ ffAudioIn p ++ ffVideoPre,
         ffAudioCodec p ++ ffHlsArgs dir p,
         by simp [ffVideoDerived, HlsProfile.gop, List.append_assoc]⟩

/-- Claim C8, witness: the default profile (`3500k`, 15 fps) gets
`-bufsize 7000k` and `-g 30`. -/
theorem C8_build_command_witness :
    parseBitrate "3500k" = Except.ok (3500, "k") ∧
    (∃ cmd, build_command ":99" "/sessions/abc" {} = Except.ok cmd ∧
      ["-b:v", "3500k", "-maxrate", "3500k",
       "-bufsize", toString (3500 * 2) ++ "k",
       "-g", toString (15 * 2), "-keyint_min", toString (15 * 2),
       "-sc_threshold", "0"] <:+: cmd) :=
  ⟨by rfl,
   C8_build_command_derived_params ":99" "/sessions/abc" {} 3500 "k" (by rfl)⟩

/-- Claim C9, counterexample: the encoder command uses the `veryfast`
preset, not the `ultrafast` one the claim describes — `"ultrafast"`
appears nowhere in the vector. -/
theorem C9_preset_counterexample :
    ∃ cmd, build_command ":99" "/sessions/abc" {} = Except.ok cmd ∧
      ["-preset", "veryfast"] <:+: cmd ∧
      ¬ (["-preset", "ultrafast"] <:+: cmd) ∧
      cmd.contains "ultrafast" = false := by
  refine ⟨_, build_command_ok ":99" "/sessions/abc" {} 3500 "k" (by rfl),
    ?_, ?_, ?_⟩
  · decide
  · decide
  · decide

/-- Claim C9, amended: for every profile whose bitrate parses, the
command selects the zero-latency tune and the *veryfast* preset
(`-preset veryfast -tune zerolatency`) and passes
`-hls_flags delete_segments+independent_segments`, so old segments are
deleted on playlist rotation. -/
theorem C9_tune_preset_rotation :
    ∀ (d dir : String) (p : HlsProfile) (r : Nat) (suf : String),
      parseBitrate p.video_bitrate = Except.ok (r, suf) →
      ∃ cmd, build_command d dir p = Except.ok cmd ∧
        ["-preset", "veryfast", "-tune", "zerolatency"] <:+: cmd ∧
        ["-hls_flags", "delete_segments+independent_segments"] <:+: cmd := by
  intro d dir p r suf h
  refine ⟨_, build_command_ok d dir p r suf h, ?_, ?_⟩
  · exact ⟨ffInputArgs d p ++ ffAudioIn p ++ ["-c:v", "libx264"],
           ffVideoDerived p (toString (r * 2) ++ suf) ++ ffAudioCodec p ++
             ffHlsArgs dir p,
           by simp [ffVideoPre, List.append_assoc]⟩
  · exact ⟨ffInputArgs d p ++ ffAudioIn p ++
             (ffVideoPre ++ ffVideoDerived p (toString (r * 2) ++ suf)) ++
             ffAudioCodec p ++
             ["-hls_time", toString p.segment_seconds,
              "-hls_list_size", toString p.list_size],
           ["-master_pl_name", "index.m3u8", "-f", "hls",
            dir ++ "/" ++ p.variant_name],
           by simp [ffHlsArgs, List.append_assoc]⟩

/-- Claim C9, witness for the amended theorem at the default profile. -/
theorem C9_tune_preset_rotation_witness :
    parseBitrate "3500k" = Except.ok (3500, "k") ∧
    (∃ cmd, build_command ":99" "/sessions/abc" {} = Except.ok cmd ∧
      ["-preset", "veryfast", "-tune", "zerolatency"] <:+: cmd ∧
      ["-hls_flags", "delete_segments+independent_segments"] <:+: cmd) :=
  ⟨by rfl,
   C9_tune_preset_rotation ":99" "/sessions/abc" {} 3500 "k" (by rfl)⟩

/-! ## Claim C10 — the legacy sender fallback -/

/-- Claim C10: when only the legacy direct-connection library is
importable, `Sender.__init__` leaves `self.client = None`, so
`is_available()` is `False`; yet `play` with a (non-empty) explicit host
connects a legacy client to `host:port`, sends a play command whose
container is the HLS MIME type, closes the client and returns `True` —
and returns `False` with no commands issued when no host is given. -/
theorem C10_legacy_only_sender_behaviour :
    ∀ (libClient : DiscClient) (name url : String) (title : Option String)
      (host : String) (port : Int),
      host ≠ "" →
      senderIsAvailable
          (senderClientInit
            { discoveryAvailable := false, legacyAvailable := true }
            none libClient) = false ∧
      senderPlay true
          (senderClientInit
            { discoveryAvailable := false, legacyAvailable := true }
            none libClient)
          name url title (some host) port =
        (true, [SendEff.legacyConnect host port,
                SendEff.legacyPlay "application/vnd.apple.mpegurl" url,
                SendEff.legacyClose]) ∧
      senderPlay true
          (senderClientInit
            { discoveryAvailable := false, legacyAvailable := true }
            none libClient)
          name url title none port =
        (false, []) := by
  intro libClient name url title host port hhost
  refine ⟨rfl, ?_, rfl⟩
  simp [senderClientInit, senderPlay, hhost]

/-- Claim C10, witness at the smoke-test host. -/
theorem C10_legacy_only_sender_witness :
    ("192.0.2.10" : String) ≠ "" ∧
    senderPlay true
        (senderClientInit
          { discoveryAvailable := false, legacyAvailable := true }
          none { devices := [] })
        "Dummy" "http://h:8080/cast/s/index.m3u8" none
        (some "192.0.2.10") 46899 =
      (true, [SendEff.legacyConnect "192.0.2.10" 46899,
              SendEff.legacyPlay "application/vnd.apple.mpegurl"
                "http://h:8080/cast/s/index.m3u8",
              SendEff.legacyClose]) :=
  ⟨by decide,
   (C10_legacy_only_sender_behaviour { devices := [] } "Dummy"
     "http://h:8080/cast/s/index.m3u8" none "192.0.2.10" 46899
     (by decide)).2.1⟩

end Flibcast
